import Mathlib

/-!
Verification development for `services/ai-service/main.py` (a FastAPI AI
gateway).  The embedding covers the provider-settings cache
(`get_user_provider_settings`), the chat-completion provider dispatch
(`chat_completion`), git-intent extraction (`detect_git_operations`,
including a faithful model of the Python `re.search` behaviour of the nine
patterns it uses) and the git-operation executor (`execute_git_operation`,
`execute_git_operations`).

Modelling conventions:
* Python dictionary values occurring in the settings payloads are modelled
  by `PyVal` (None, bools, strings, ints); dictionaries by association
  lists whose leftmost binding is the current one.
* `async` I/O is modelled by passing the outcome of each outbound HTTP
  call as an explicit argument (`FetchOutcome`, `ExecOutcome`); a function
  result of `PyResult.raised` models an uncaught Python exception
  propagating to the caller.
* Strings are modelled at ASCII level: `str.lower` maps `A`..`Z` to
  `a`..`z`, and the `\s` class is the ASCII whitespace set.
* `temperature` and `max_tokens` of `ChatRequest` are forwarded verbatim
  to the provider SDK calls and never inspected by the code under
  verification, so they are not part of the embedding.
-/

namespace AIService

/-- A Python value as it occurs in the provider-settings dictionaries. -/
inductive PyVal where
  | vNone
  | vBool (b : Bool)
  | vStr (s : String)
  | vInt (n : Int)
deriving DecidableEq

/-- Python truthiness for `PyVal`. -/
def PyVal.truthy : PyVal → Bool
  | .vNone => false
  | .vBool b => b
  | .vStr s => s != ""
  | .vInt n => n != 0

/-- A Python dict with string keys, e.g. one provider's settings entry. -/
abbrev PyDict := List (String × PyVal)

/-- `d.get(k)`: `none` models both a missing key and Python `None`
being returned for it. -/
def pyGet (d : PyDict) (k : String) : Option PyVal :=
  List.lookup k d

/-- `d.get(k, default)`. -/
def pyGetD (d : PyDict) (k : String) (dflt : PyVal) : PyVal :=
  (pyGet d k).getD dflt

/-- Truthiness of `d.get(k)` (missing key → `None` → falsy). -/
def pyGetTruthy (d : PyDict) (k : String) : Bool :=
  ((pyGet d k).map PyVal.truthy).getD false

/-- main.py lines 41-44: the pydantic model `ProviderSettings` with its
exactly three declared provider fields (`Dict[str, Any]` each). -/
structure ProviderSettings where
  openai : PyDict
  anthropic : PyDict
  google : PyDict
deriving DecidableEq

/-- Raw parsed JSON body of a settings response: provider name ↦ settings
dict (`response.json()` at line 62). -/
abbrev RawSettings := List (String × PyDict)

/-- Result of running a piece of Python code: a value, or an uncaught
exception carrying its message. -/
inductive PyResult (α : Type) where
  | ok (value : α)
  | raised (msg : String)
deriving DecidableEq

def PyResult.isOk {α : Type} : PyResult α → Bool
  | .ok _ => true
  | .raised _ => false

/-- `ProviderSettings(**settings)`: pydantic validation requires the three
declared fields to be present; extra keys (e.g. `github`) are ignored. -/
def mkProviderSettings (raw : RawSettings) : PyResult ProviderSettings :=
  match List.lookup "openai" raw, List.lookup "anthropic" raw,
      List.lookup "google" raw with
  | some o, some a, some g => .ok ⟨o, a, g⟩
  | _, _, _ => .raised "validation error for ProviderSettings"

/-- Python attribute access on the pydantic model: `none` models an
`AttributeError` for a field the model does not declare (as at line 311,
`settings.github`). -/
def ProviderSettings.attr (s : ProviderSettings) (field : String) :
    Option PyDict :=
  if field = "openai" then some s.openai
  else if field = "anthropic" then some s.anthropic
  else if field = "google" then some s.google
  else none

/-- The per-provider default entry used at lines 67-71 and 75-79. -/
def defaultProviderDict : PyDict :=
  [("apiKey", .vStr ""), ("enabled", .vBool false)]

/-- The all-disabled, empty-key default settings of lines 67-71 / 75-79. -/
def default_provider_settings : ProviderSettings :=
  ⟨defaultProviderDict, defaultProviderDict, defaultProviderDict⟩

/-- The module-level `provider_settings_cache` (line 47): user id ↦ the raw
settings body stored for that user. -/
abbrev SettingsCache := List (String × RawSettings)

/-- Outcome of the `GET /settings/providers` call at lines 55-59:
a transport exception, or a response with its status and parsed JSON body
(`none` when the body is not valid JSON, so `response.json()` raises). -/
inductive FetchOutcome where
  | fetchExn (msg : String)
  | fetchResp (status : Nat) (body : Option RawSettings)
deriving DecidableEq

/-- What one call of `get_user_provider_settings` produces: the value
returned (or the exception raised) to the caller, the cache afterwards,
and whether the remote settings service was contacted. -/
structure SettingsGetResult where
  result : PyResult ProviderSettings
  cache : SettingsCache
  fetched : Bool
deriving DecidableEq

/-- main.py lines 49-79.  The cache-hit path (lines 51-52) re-validates the
stored raw body *outside* the `try` block; on a 200 response the raw body
is stored (line 63) before `ProviderSettings(**settings)` is constructed
(line 64), and any exception inside the `try` is absorbed into the default
settings (lines 72-79). -/
def get_user_provider_settings (cache : SettingsCache) (user_id : String)
    (fetch : FetchOutcome) : SettingsGetResult :=
  match List.lookup user_id cache with
  | some raw => ⟨mkProviderSettings raw, cache, false⟩
  | none =>
    match fetch with
    | .fetchExn _ => ⟨.ok default_provider_settings, cache, true⟩
    | .fetchResp status body? =>
      if status = 200 then
        match body? with
        | none => ⟨.ok default_provider_settings, cache, true⟩
        | some body =>
          ⟨match mkProviderSettings body with
            | .ok s => .ok s
            | .raised _ => .ok default_provider_settings,
           (user_id, body) :: cache, true⟩
      else ⟨.ok default_provider_settings, cache, true⟩

/-- main.py lines 30-32. -/
structure ChatMessage where
  role : String
  content : String
deriving DecidableEq

/-- main.py lines 34-39 (see the header note on `temperature` and
`max_tokens`). -/
structure ChatRequest where
  messages : List ChatMessage
  provider : Option String := none
  model : Option String := none
deriving DecidableEq

/-- Python `x or default` on an optional string: `None` and `""` are
falsy. -/
def pyOr (v : Option String) (dflt : String) : String :=
  match v with
  | none => dflt
  | some s => if s = "" then dflt else s

/-- One entry of `formatted_messages` (lines 189-196): either the
role/content dict used for OpenAI, Anthropic and Ollama, or Google's
role/parts dict whose parts are `{"text": …}` wrappers. -/
inductive FormattedMsg where
  | roleContent (role : String) (content : String)
  | roleParts (role : String) (parts : List String)
deriving DecidableEq

/-- The message-translation loop at lines 189-196: a provider other than
the three named there contributes nothing to `formatted_messages`. -/
def formatMessages (provider : String) (msgs : List ChatMessage) :
    List FormattedMsg :=
  msgs.filterMap (fun m =>
    if provider = "openai" then some (.roleContent m.role m.content)
    else if provider = "anthropic" then some (.roleContent m.role m.content)
    else if provider = "google" then some (.roleParts m.role [m.content])
    else none)

/-- The provider SDK client returned by `get_provider_client`. -/
inductive Client where
  | openai
  | anthropic
  | google
  | ollama
  | github
deriving DecidableEq

/-- main.py lines 81-100: client construction is local (no network);
an unsupported provider raises `ValueError`. -/
def get_provider_client (provider : String) (_api_key : Option PyVal) :
    PyResult Client :=
  if provider = "openai" then .ok .openai
  else if provider = "anthropic" then .ok .anthropic
  else if provider = "google" then .ok .google
  else if provider = "ollama" then .ok .ollama
  else if provider = "github" then .ok .github
  else .raised ("Unsupported provider: " ++ provider)

/-- The payload transmitted by the provider call that `chat_completion`
performs (lines 199-239): the full formatted message list for
OpenAI/Anthropic, a single text string for Google's
`generate_content`, and the rebuilt role/content list for Ollama. -/
inductive Payload where
  | chat (msgs : List FormattedMsg)
  | generate (text : String)
  | ollamaChat (msgs : List FormattedMsg)
deriving DecidableEq

/-- The provider network call performed by a successful dispatch. -/
structure Invocation where
  provider : String
  model : String
  payload : Payload
deriving DecidableEq

/-- The failures `chat_completion` can produce instead of a provider call:
`noProvider` is the 400 of lines 161-164, `missingKey` the 400 of lines
178-182, and `serviceError` the 500 of line 253 wrapping any exception
raised inside the `try` block (including the `HTTPException` of line 242,
which `except Exception` catches and re-wraps). -/
inductive DispatchError where
  | noProvider
  | missingKey (provider : String)
  | serviceError (msg : String)
deriving DecidableEq

/-- Result of `chat_completion`: the provider call it performs, or the
failure it returns without performing any provider call. -/
inductive DispatchOutcome where
  | invoked (call : Invocation)
  | failed (err : DispatchError)
deriving DecidableEq

/-- main.py lines 150-164: auto-selection when the request names no
provider. -/
def autoSelectProvider (settings : ProviderSettings)
    (ollamaModels : List String) : Option String :=
  if pyGetTruthy settings.openai "enabled" then some "openai"
  else if pyGetTruthy settings.anthropic "enabled" then some "anthropic"
  else if pyGetTruthy settings.google "enabled" then some "google"
  else if ollamaModels.length > 0 then some "ollama"
  else none

/-- main.py lines 166-249, from a provider name onwards: API-key
resolution (166-176), the missing-key check (178-182), client
construction (186), message translation (189-196) and the
provider-specific call (199-242).  For Google the call transmits
`formatted_messages[0]["parts"][0]["text"]` (line 219); an empty message
list makes that indexing raise, which line 251 turns into the 500. -/
def dispatchProvider (settings : ProviderSettings) (request : ChatRequest)
    (provider : String) : DispatchOutcome :=
  let api_key : Option PyVal :=
    if provider = "openai" then some (pyGetD settings.openai "apiKey" (.vStr ""))
    else if provider = "anthropic" then some (pyGetD settings.anthropic "apiKey" (.vStr ""))
    else if provider = "google" then some (pyGetD settings.google "apiKey" (.vStr ""))
    else if provider = "ollama" then none
    else some (.vStr "")
  let keyTruthy := (api_key.map PyVal.truthy).getD false
  if !keyTruthy && (["openai", "anthropic", "google"] : List String).contains provider then
    .failed (.missingKey provider)
  else
    match get_provider_client provider api_key with
    | .raised msg => .failed (.serviceError msg)
    | .ok _client =>
      let formatted_messages := formatMessages provider request.messages
      if provider = "openai" then
        .invoked ⟨"openai", pyOr request.model "gpt-3.5-turbo", .chat formatted_messages⟩
      else if provider = "anthropic" then
        .invoked ⟨"anthropic", pyOr request.model "claude-3-sonnet-20240229",
          .chat formatted_messages⟩
      else if provider = "google" then
        match formatted_messages with
        | .roleParts _ (t :: _) :: _ =>
          .invoked ⟨"google", pyOr request.model "gemini-pro", .generate t⟩
        | _ => .failed (.serviceError "list index out of range")
      else if provider = "ollama" then
        .invoked ⟨"ollama", pyOr request.model "llama2",
          .ollamaChat (request.messages.map (fun m => .roleContent m.role m.content))⟩
      else
        .failed (.serviceError ("Unsupported provider: " ++ provider))

/-- main.py lines 138-253: the dispatch core of `POST /chat`.  The
authentication check (141-143) precedes this logic; the settings used are
the value produced by `get_user_provider_settings` (line 146), and
`ollamaModels` is the listing `get_ollama_models()` would return at line
158.  `if not provider` (line 150) treats both an absent and an empty
provider string as "auto-select". -/
def chat_completion (settings : ProviderSettings) (ollamaModels : List String)
    (request : ChatRequest) : DispatchOutcome :=
  let explicit : Option String :=
    match request.provider with
    | none => none
    | some p => if p = "" then none else some p
  match explicit with
  | some p => dispatchProvider settings request p
  | none =>
    match autoSelectProvider settings ollamaModels with
    | some p => dispatchProvider settings request p
    | none => .failed .noProvider

/-! ## Intent extraction (`detect_git_operations`, main.py lines 430-500)

The nine patterns handed to `re.search` are embedded as `Pattern` values
and matched by a faithful model of the Python engine on these patterns:
leftmost start position first; at a start position, backtracking
alternatives in the engine's priority order (`\s+` greedy, `(?:…)?`
greedy, `(.+?)` lazy, `$` only at end of the string); `group(1)` of the
first success is returned. -/

/-- The Python `\s` class (ASCII): space, `\t`, `\n`, `\r`, `\f`, `\v`. -/
def isPyWs (c : Char) : Bool :=
  c = ' ' || c = '\t' || c = '\n' || c = Char.ofNat 13 || c = Char.ofNat 12 ||
    c = Char.ofNat 11

/-- The character class from the commit patterns matching a double or a
single quote. -/
def isPyQuote (c : Char) : Bool :=
  c = Char.ofNat 34 || c = Char.ofNat 39

/-- A regex atom occurring before the capture group: a literal character
or `\s+`. -/
inductive PAtom where
  | lit (c : Char)
  | ws
deriving DecidableEq

/-- A regex element before the capture group: an atom or an optional
non-capturing group `(?:…)?` of atoms. -/
inductive PElem where
  | atom (a : PAtom)
  | optGroup (alts : List PAtom)
deriving DecidableEq

/-- Length of the maximal whitespace run at the head of `s`. -/
def wsRun : List Char → Nat
  | [] => 0
  | c :: rest => if isPyWs c then wsRun rest + 1 else 0

/-- The remainders `\s+` can leave, greediest (most consumed) first;
empty when no whitespace is at the head, since `\s+` needs one. -/
def wsRemainders (s : List Char) : List (List Char) :=
  (List.range (wsRun s)).map (fun i => s.drop (wsRun s - i))

/-- All remainders a list of atoms can leave of `s`, in backtracking
priority order. -/
def matchAtoms : List PAtom → List Char → List (List Char)
  | [], s => [s]
  | .lit c :: ps, s =>
    match s with
    | [] => []
    | d :: rest => if d = c then matchAtoms ps rest else []
  | .ws :: ps, s => (wsRemainders s).flatMap (fun r => matchAtoms ps r)

/-- All remainders a list of elements can leave of `s`, in backtracking
priority order; a greedy `(?:…)?` tries its present alternatives before
its absent one. -/
def matchElems : List PElem → List Char → List (List Char)
  | [], s => [s]
  | .atom a :: ps, s => (matchAtoms [a] s).flatMap (fun r => matchElems ps r)
  | .optGroup alts :: ps, s =>
    ((matchAtoms alts s).flatMap (fun r => matchElems ps r)) ++ matchElems ps s

/-- How every pattern of main.py ends: `(.+?)(?:\s+|$)` or
`["\'](.+?)["\']`. -/
inductive PTail where
  | tillWsOrEnd
  | quoted
deriving DecidableEq

/-- `(.+?)(?:\s+|$)`: the shortest capture of one or more non-newline
characters followed by whitespace or the end of the string. -/
def lazyTillWsOrEnd : List Char → Option (List Char)
  | [] => none
  | c :: rest =>
    if c = '\n' then none
    else
      match rest with
      | [] => some [c]
      | d :: _ => if isPyWs d then some [c] else (lazyTillWsOrEnd rest).map (c :: ·)

/-- `(.+?)["\']` after the opening quote: the shortest capture of one or
more non-newline characters followed by a quote. -/
def lazyTillQuote : List Char → Option (List Char)
  | [] => none
  | c :: rest =>
    if c = '\n' then none
    else
      match rest with
      | [] => none
      | d :: _ => if isPyQuote d then some [c] else (lazyTillQuote rest).map (c :: ·)

/-- Match the capture tail of a pattern, returning `group(1)`. -/
def matchPTail : PTail → List Char → Option (List Char)
  | .tillWsOrEnd, s => lazyTillWsOrEnd s
  | .quoted, s =>
    match s with
    | [] => none
    | c :: rest => if isPyQuote c then lazyTillQuote rest else none

/-- One of the nine patterns of `detect_git_operations`: the elements
before the capture, then the capture tail. -/
structure Pattern where
  elems : List PElem
  capTail : PTail
deriving DecidableEq

/-- Try the pattern anchored at `s`, returning `group(1)` of the
first-priority success. -/
def tryMatchAt (p : Pattern) (s : List Char) : Option (List Char) :=
  (matchElems p.elems s).findSome? (fun r => matchPTail p.capTail r)

/-- `re.search`: try every start position from the left, returning
`group(1)` of the first success. -/
def reSearch (p : Pattern) : List Char → Option (List Char)
  | [] => tryMatchAt p []
  | c :: rest =>
    match tryMatchAt p (c :: rest) with
    | some g => some g
    | none => reSearch p rest

/-- Literal elements of a pattern (a space inside is the literal space
character). -/
def lits (s : String) : List PElem := s.data.map (fun c => .atom (.lit c))

/-- Literal atoms for the body of an optional group. -/
def alits (s : String) : List PAtom := s.data.map .lit

/-- main.py lines 445-449: `clone\s+(.+?)(?:\s+|$)`,
`git\s+clone\s+(.+?)(?:\s+|$)`, `pull\s+down\s+(.+?)(?:\s+|$)`. -/
def clone_patterns : List Pattern :=
  [ ⟨lits "clone" ++ [.atom .ws], .tillWsOrEnd⟩,
    ⟨lits "git" ++ [.atom .ws] ++ lits "clone" ++ [.atom .ws], .tillWsOrEnd⟩,
    ⟨lits "pull" ++ [.atom .ws] ++ lits "down" ++ [.atom .ws], .tillWsOrEnd⟩ ]

/-- main.py lines 461-465: `checkout\s+(?:branch\s+)?(.+?)(?:\s+|$)`,
`switch\s+to\s+(?:branch\s+)?(.+?)(?:\s+|$)`,
`git\s+checkout\s+(.+?)(?:\s+|$)`. -/
def checkout_patterns : List Pattern :=
  [ ⟨lits "checkout" ++ [.atom .ws, .optGroup (alits "branch" ++ [.ws])],
      .tillWsOrEnd⟩,
    ⟨lits "switch" ++ [.atom .ws] ++ lits "to" ++
        [.atom .ws, .optGroup (alits "branch" ++ [.ws])],
      .tillWsOrEnd⟩,
    ⟨lits "git" ++ [.atom .ws] ++ lits "checkout" ++ [.atom .ws], .tillWsOrEnd⟩ ]

/-- main.py lines 478-482: `commit\s+(?:with message\s+)?["\'](.+?)["\']`,
`git\s+commit\s+-m\s+["\'](.+?)["\']`,
`save changes\s+(?:with message\s+)?["\'](.+?)["\']`. -/
def commit_patterns : List Pattern :=
  [ ⟨lits "commit" ++ [.atom .ws, .optGroup (alits "with message" ++ [.ws])],
      .quoted⟩,
    ⟨lits "git" ++ [.atom .ws] ++ lits "commit" ++ [.atom .ws] ++ lits "-m" ++
        [.atom .ws],
      .quoted⟩,
    ⟨lits "save changes" ++ [.atom .ws, .optGroup (alits "with message" ++ [.ws])],
      .quoted⟩ ]

/-- `str.lower` at ASCII level, as applied at line 442. -/
def lowerChar (c : Char) : Char :=
  if 65 ≤ c.toNat ∧ c.toNat ≤ 90 then Char.ofNat (c.toNat + 32) else c

/-- `message.lower()` as a string-to-string function. -/
def pyLower (s : String) : String := ⟨s.data.map lowerChar⟩

/-- Python `str.strip()`: drop whitespace from both ends. -/
def pyStrip (s : List Char) : List Char :=
  ((s.dropWhile isPyWs).reverse.dropWhile isPyWs).reverse

/-- Python `needle in hay` on strings: substring containment. -/
def strContains (hay : List Char) (needle : String) : Bool :=
  decide (needle.data <:+: hay)

/-- main.py lines 430-437: the pydantic `GitOperationRequest` (pydantic
defaults: `None` for the optional fields, `False` for `create`). -/
structure GitOperationRequest where
  operation : String
  repoUrl : Option String := none
  branch : Option String := none
  message : Option String := none
  files : Option (List String) := none
  projectName : Option String := none
  create : Bool := false
deriving DecidableEq

/-- The clone loop, lines 450-458: one operation per matching pattern. -/
def clone_ops (ml : List Char) : List GitOperationRequest :=
  clone_patterns.filterMap (fun p =>
    (reSearch p ml).map (fun g =>
      { operation := "clone", repoUrl := some (String.mk (pyStrip g)),
        branch := some "main" }))

/-- The checkout loop, lines 466-475: one operation per matching pattern;
`create` is set when the lower-cased message contains `create` or `new`. -/
def checkout_ops (ml : List Char) : List GitOperationRequest :=
  checkout_patterns.filterMap (fun p =>
    (reSearch p ml).map (fun g =>
      { operation := "checkout", branch := some (String.mk (pyStrip g)),
        create := strContains ml "create" || strContains ml "new" }))

/-- The commit loop, lines 483-490: one operation per matching pattern. -/
def commit_ops (ml : List Char) : List GitOperationRequest :=
  commit_patterns.filterMap (fun p =>
    (reSearch p ml).map (fun g =>
      { operation := "commit", message := some (String.mk (pyStrip g)) }))

/-- Lines 493-494: push trigger words. -/
def push_ops (ml : List Char) : List GitOperationRequest :=
  if strContains ml "push" || strContains ml "upload" || strContains ml "sync changes" then
    [{ operation := "push" }]
  else []

/-- Lines 497-498: status trigger words. -/
def status_ops (ml : List Char) : List GitOperationRequest :=
  if strContains ml "status" || strContains ml "what changed" || strContains ml "changes" then
    [{ operation := "status" }]
  else []

/-- main.py lines 439-500: lower-case the message once, then append the
operations of each rule category in the fixed order clone, checkout,
commit, push, status. -/
def detect_git_operations (message : String) : List GitOperationRequest :=
  let ml := message.data.map lowerChar
  clone_ops ml ++ checkout_ops ml ++ commit_ops ml ++ push_ops ml ++ status_ops ml

/-! ## Operation execution (main.py lines 502-593) -/

/-- Outcome of one outbound call to the terminal service: a transport
exception, or a response with its status, its JSON body when the
content type is JSON and the body parses (`none` otherwise), and its raw
text. -/
inductive ExecOutcome where
  | execExn (msg : String)
  | execResp (status : Nat) (jsonBody : Option PyDict) (text : String)
deriving DecidableEq

/-- The value `execute_git_operation` returns: the parsed body of a 200
response, or the `{'success': False, 'error': …}` dict built on any
failure. -/
inductive OpResult where
  | ok (body : PyDict)
  | failure (error : PyVal)
deriving DecidableEq

def OpResult.isFailure : OpResult → Bool
  | .ok _ => false
  | .failure _ => true

/-- main.py lines 502-556.  A known tag sends one request (whose endpoint
and payload are per-tag, lines 506-545) and interprets the response
(549-553); an unknown tag returns the unknown-operation failure without
any call (547); any exception, including a JSON-decode error on a 200
response, becomes `{'success': False, 'error': str(e)}` (555-556); a
non-200 response yields the body's `error` field, `'Git operation
failed'` when a JSON body lacks one, or the raw text of a non-JSON body
(552-553). -/
def execute_git_operation (op : GitOperationRequest) (outcome : ExecOutcome) :
    OpResult :=
  if (["clone", "checkout", "status", "commit", "push"] : List String).contains
      op.operation then
    match outcome with
    | .execExn msg => .failure (.vStr msg)
    | .execResp status jsonBody text =>
      if status = 200 then
        match jsonBody with
        | some b => .ok b
        | none => .failure (.vStr ("Expecting value: " ++ text))
      else
        match jsonBody with
        | some b => .failure (pyGetD b "error" (.vStr "Git operation failed"))
        | none => .failure (.vStr text)
  else .failure (.vStr ("Unknown git operation: " ++ op.operation))

/-- The execution loop of `POST /git/execute`, main.py lines 582-588:
run every operation in list order, pairing each with its tag; the
`outcomes` oracle gives the result of the outbound call made for the
k-th operation. -/
def execute_git_operations (ops : List GitOperationRequest)
    (outcomes : Nat → ExecOutcome) : List (String × OpResult) :=
  ops.enum.map (fun iop => (iop.2.operation, execute_git_operation iop.2 (outcomes iop.1)))

/-- The spec's qualification predicate for auto-selection (§4.3), written
from the spec's words only, to be compared with `autoSelectProvider`:
openai/anthropic/google qualify iff their settings entry is enabled,
ollama iff the local model listing is non-empty. -/
def specUsableProvider (settings : ProviderSettings) (ollamaModels : List String)
    (p : String) : Bool :=
  if p = "openai" then pyGetTruthy settings.openai "enabled"
  else if p = "anthropic" then pyGetTruthy settings.anthropic "enabled"
  else if p = "google" then pyGetTruthy settings.google "enabled"
  else if p = "ollama" then !ollamaModels.isEmpty
  else false

/-! ## Concrete data used by counterexamples and witnesses -/

/-- Settings with only Google enabled and carrying a key. -/
def googleEnabledSettings : ProviderSettings :=
  ⟨defaultProviderDict, defaultProviderDict,
    [("apiKey", .vStr "k"), ("enabled", .vBool true)]⟩

/-- Settings with only OpenAI enabled and carrying a key. -/
def openaiEnabledSettings : ProviderSettings :=
  ⟨[("apiKey", .vStr "sk"), ("enabled", .vBool true)], defaultProviderDict,
    defaultProviderDict⟩

/-- A settings body carrying all three fields the pydantic model
declares, so that it validates. -/
def fullRawSettings : RawSettings :=
  [("openai", defaultProviderDict), ("anthropic", defaultProviderDict),
   ("google", defaultProviderDict)]

/-- A settings body missing the `google` field, so that
`ProviderSettings(**settings)` raises a validation error. -/
def incompleteRawSettings : RawSettings :=
  [("openai", defaultProviderDict), ("anthropic", defaultProviderDict)]

/-! ## General lemmas about the embedding -/

theorem char_toNat_ofNat (n : Nat) (h : n.isValidChar) :
    (Char.ofNat n).toNat = n := by
  simp [Char.ofNat, h, Char.toNat, Char.ofNatAux, UInt32.toNat, UInt32.ofNat']

theorem lowerChar_idem (c : Char) : lowerChar (lowerChar c) = lowerChar c := by
  by_cases h : 65 ≤ c.toNat ∧ c.toNat ≤ 90
  · have hv : (c.toNat + 32).isValidChar := by
      left
      omega
    have hr := char_toNat_ofNat (c.toNat + 32) hv
    have h2 : ¬(65 ≤ (Char.ofNat (c.toNat + 32)).toNat ∧
        (Char.ofNat (c.toNat + 32)).toNat ≤ 90) := by
      rw [hr]
      omega
    unfold lowerChar
    simp [h, h2]
  · unfold lowerChar
    simp [h]

theorem pyLower_data (m : String) : (pyLower m).data = m.data.map lowerChar := rfl

/-- Lower-casing the message first does not change what is extracted:
`detect_git_operations` only ever looks at the lower-cased character
list, and `lowerChar` is idempotent. -/
theorem detect_lower_invariant (m : String) :
    detect_git_operations (pyLower m) = detect_git_operations m := by
  unfold detect_git_operations
  have : (pyLower m).data.map lowerChar = m.data.map lowerChar := by
    rw [pyLower_data, List.map_map]
    exact List.map_congr_left (fun c _ => lowerChar_idem c)
  rw [this]

/-- A pattern loop of `detect_git_operations` contributes exactly one
operation per pattern whose search succeeds. -/
theorem length_filterMap_search (pats : List Pattern) (ml : List Char)
    (f : List Char → GitOperationRequest) :
    (pats.filterMap (fun p => (reSearch p ml).map f)).length =
      pats.countP (fun p => (reSearch p ml).isSome) := by
  induction pats with
  | nil => rfl
  | cons p ps ih =>
    simp only [List.filterMap_cons, List.countP_cons]
    cases h : reSearch p ml with
    | none => simp [h, ih]
    | some g => simp [h, ih]

theorem mem_clone_ops (ml : List Char) (op : GitOperationRequest)
    (h : op ∈ clone_ops ml) : op.operation = "clone" := by
  simp only [clone_ops, List.mem_filterMap] at h
  obtain ⟨p, -, hmap⟩ := h
  obtain ⟨g, -, rfl⟩ := Option.map_eq_some'.mp hmap
  rfl

theorem mem_checkout_ops (ml : List Char) (op : GitOperationRequest)
    (h : op ∈ checkout_ops ml) : op.operation = "checkout" := by
  simp only [checkout_ops, List.mem_filterMap] at h
  obtain ⟨p, -, hmap⟩ := h
  obtain ⟨g, -, rfl⟩ := Option.map_eq_some'.mp hmap
  rfl

theorem mem_commit_ops (ml : List Char) (op : GitOperationRequest)
    (h : op ∈ commit_ops ml) : op.operation = "commit" := by
  simp only [commit_ops, List.mem_filterMap] at h
  obtain ⟨p, -, hmap⟩ := h
  obtain ⟨g, -, rfl⟩ := Option.map_eq_some'.mp hmap
  rfl

theorem mem_push_ops (ml : List Char) (op : GitOperationRequest)
    (h : op ∈ push_ops ml) : op.operation = "push" := by
  simp only [push_ops] at h
  split at h
  · simp at h
    subst h
    rfl
  · simp at h

theorem mem_status_ops (ml : List Char) (op : GitOperationRequest)
    (h : op ∈ status_ops ml) : op.operation = "status" := by
  simp only [status_ops] at h
  split at h
  · simp at h
    subst h
    rfl
  · simp at h

theorem filter_tag_self {l : List GitOperationRequest} {t : String}
    (h : ∀ op ∈ l, op.operation = t) :
    l.filter (fun op => op.operation == t) = l :=
  List.filter_eq_self.mpr (fun op hop => by simp [h op hop])

theorem filter_tag_nil {l : List GitOperationRequest} {t t' : String}
    (h : ∀ op ∈ l, op.operation = t) (hne : t ≠ t') :
    l.filter (fun op => op.operation == t') = [] := by
  apply List.filter_eq_nil_iff.mpr
  intro op hop
  simp [h op hop, hne]

theorem formatMessages_google (msgs : List ChatMessage) :
    formatMessages "google" msgs =
      msgs.map (fun m => .roleParts m.role [m.content]) := by
  induction msgs with
  | nil => rfl
  | cons a l ih =>
    rw [show formatMessages "google" (a :: l) =
      FormattedMsg.roleParts a.role [a.content] :: formatMessages "google" l from rfl, ih]
    rfl

/-! ## Claims -/

/-- C1, counterexample: with two messages dispatched to Google, the text
handed to `generate_content` is the content of the *first* message
(`formatted_messages[0]`, line 219), not of the last one as the claim
states: here it is `"first"`, which differs from the last message's
content `"second"`. -/
theorem C1_counterexample :
    chat_completion googleEnabledSettings []
        ⟨[⟨"user", "first"⟩, ⟨"assistant", "second"⟩], some "google", none⟩ =
      .invoked ⟨"google", "gemini-pro", .generate "first"⟩ ∧
    "first" ≠ "second" := by
  decide

/-- C1, amended: for the Google provider, `translateMessages` wraps every
message of the conversation into the provider part structure, but the
invoke step transmits only the content of the **first** message of the
sequence to the generate call. -/
theorem C1_google_transmits_first_message (settings : ProviderSettings)
    (om : List String) (m : ChatMessage) (rest : List ChatMessage)
    (model : Option String)
    (hkey : (pyGetD settings.google "apiKey" (.vStr "")).truthy = true) :
    formatMessages "google" (m :: rest) =
      (m :: rest).map (fun msg => .roleParts msg.role [msg.content]) ∧
    chat_completion settings om ⟨m :: rest, some "google", model⟩ =
      .invoked ⟨"google", pyOr model "gemini-pro", .generate m.content⟩ := by
  constructor
  · exact formatMessages_google (m :: rest)
  · simp only [chat_completion, dispatchProvider, get_provider_client, hkey]
    simp [formatMessages, hkey]

/-- C1, witness for `C1_google_transmits_first_message`. -/
theorem C1_witness :
    chat_completion googleEnabledSettings []
        ⟨[⟨"user", "a"⟩, ⟨"user", "b"⟩], some "google", none⟩ =
      .invoked ⟨"google", "gemini-pro", .generate "a"⟩ :=
  (C1_google_transmits_first_message googleEnabledSettings [] ⟨"user", "a"⟩
    [⟨"user", "b"⟩] none (by decide)).2

/-- C2, counterexample: `"git clone foo"` matches both the
`clone <target>` and the `git clone <target>` patterns, and the loop at
lines 450-458 appends one operation per matching pattern (there is no
first-match cut), so the clone tag yields **two** operations, not one. -/
theorem C2_counterexample :
    detect_git_operations "git clone foo" =
      [{ operation := "clone", repoUrl := some "foo", branch := some "main" },
       { operation := "clone", repoUrl := some "foo", branch := some "main" }] ∧
    ((detect_git_operations "git clone foo").filter
        (fun op => op.operation == "clone")).length = 2 := by
  decide

/-- C2, amended: within a tag's rule set **every** matching pattern
contributes one operation: for each of the clone, checkout and commit
tags, the number of operations of that tag equals the number of patterns
of that tag's rule set whose search succeeds on the lower-cased
message. -/
theorem C2_per_tag_counts (m : String) :
    ((detect_git_operations m).filter (fun op => op.operation == "clone")).length =
        clone_patterns.countP
          (fun p => (reSearch p (m.data.map lowerChar)).isSome) ∧
    ((detect_git_operations m).filter (fun op => op.operation == "checkout")).length =
        checkout_patterns.countP
          (fun p => (reSearch p (m.data.map lowerChar)).isSome) ∧
    ((detect_git_operations m).filter (fun op => op.operation == "commit")).length =
        commit_patterns.countP
          (fun p => (reSearch p (m.data.map lowerChar)).isSome) := by
  refine ⟨?_, ?_, ?_⟩ <;>
    unfold detect_git_operations <;>
    simp only [List.filter_append, List.length_append]
  · rw [filter_tag_self (mem_clone_ops (m.data.map lowerChar)),
      filter_tag_nil (mem_checkout_ops (m.data.map lowerChar)) (by decide),
      filter_tag_nil (mem_commit_ops (m.data.map lowerChar)) (by decide),
      filter_tag_nil (mem_push_ops (m.data.map lowerChar)) (by decide),
      filter_tag_nil (mem_status_ops (m.data.map lowerChar)) (by decide)]
    unfold clone_ops
    rw [length_filterMap_search]
    simp
  · rw [filter_tag_self (mem_checkout_ops (m.data.map lowerChar)),
      filter_tag_nil (mem_clone_ops (m.data.map lowerChar)) (by decide),
      filter_tag_nil (mem_commit_ops (m.data.map lowerChar)) (by decide),
      filter_tag_nil (mem_push_ops (m.data.map lowerChar)) (by decide),
      filter_tag_nil (mem_status_ops (m.data.map lowerChar)) (by decide)]
    unfold checkout_ops
    rw [length_filterMap_search]
    simp
  · rw [filter_tag_self (mem_commit_ops (m.data.map lowerChar)),
      filter_tag_nil (mem_clone_ops (m.data.map lowerChar)) (by decide),
      filter_tag_nil (mem_checkout_ops (m.data.map lowerChar)) (by decide),
      filter_tag_nil (mem_push_ops (m.data.map lowerChar)) (by decide),
      filter_tag_nil (mem_status_ops (m.data.map lowerChar)) (by decide)]
    unfold commit_ops
    rw [length_filterMap_search]
    simp

/-- C3, counterexample: on `"checkout new feature-x"` the lazy capture of
`checkout\s+(?:branch\s+)?(.+?)(?:\s+|$)` stops at the first whitespace,
so the captured branch is `"new"`, not `"feature-x"` as the claim
states. -/
theorem C3_counterexample :
    (detect_git_operations "checkout new feature-x").map (fun op => op.branch) =
      [some "new"] ∧
    (some "new" : Option String) ≠ some "feature-x" := by
  decide

/-- C3, amended: `extract("checkout new feature-x")` returns exactly one
operation, a checkout with branch `"new"` (the first
whitespace-delimited token after `checkout`) and `create = true`
(because the message contains the word `new`). -/
theorem C3_checkout_new_branch :
    detect_git_operations "checkout new feature-x" =
      [{ operation := "checkout", branch := some "new", create := true }] := by
  decide

/-- C4, counterexample: the settings read *can* raise on a call that hits
a previously populated cache entry.  A 200 response whose body lacks the
`google` field is stored in the cache (line 63) before validation fails;
the first call absorbs the exception and returns the defaults, but the
second call revalidates the cached body **outside** the `try` block
(lines 51-52) and raises to the caller. -/
theorem C4_counterexample :
    (get_user_provider_settings [] "u"
        (.fetchResp 200 (some incompleteRawSettings))).result =
      .ok default_provider_settings ∧
    (get_user_provider_settings
        (get_user_provider_settings [] "u"
          (.fetchResp 200 (some incompleteRawSettings))).cache
        "u" (.fetchExn "settings service down")).fetched = false ∧
    ((get_user_provider_settings
        (get_user_provider_settings [] "u"
          (.fetchResp 200 (some incompleteRawSettings))).cache
        "u" (.fetchExn "settings service down")).result).isOk = false := by
  decide

/-- C4, amended: on every cache-miss call `get_user_provider_settings`
never raises, and on any transport failure or non-200 response it
returns the fully-populated all-disabled, empty-key default settings;
a cache-hit call revalidates the stored body and never raises provided
the cached body validates as a `ProviderSettings`. -/
theorem C4_settings_get_absorbs_fetch_failures (cache : SettingsCache)
    (uid : String) :
    (∀ msg, List.lookup uid cache = none →
      (get_user_provider_settings cache uid (.fetchExn msg)).result =
        .ok default_provider_settings) ∧
    (∀ st body, List.lookup uid cache = none → st ≠ 200 →
      (get_user_provider_settings cache uid (.fetchResp st body)).result =
        .ok default_provider_settings) ∧
    (∀ fetch, List.lookup uid cache = none →
      ((get_user_provider_settings cache uid fetch).result).isOk = true) ∧
    (∀ fetch raw, List.lookup uid cache = some raw →
      (mkProviderSettings raw).isOk = true →
      ((get_user_provider_settings cache uid fetch).result).isOk = true) := by
  refine ⟨?_, ?_, ?_, ?_⟩
  · intro msg h
    simp [get_user_provider_settings, h]
  · intro st body h hst
    simp [get_user_provider_settings, h, hst]
  · intro fetch h
    cases fetch with
    | fetchExn msg => simp [get_user_provider_settings, h, PyResult.isOk]
    | fetchResp st body? =>
      simp only [get_user_provider_settings, h]
      by_cases hst : st = 200
      · cases body? with
        | none => simp [hst, PyResult.isOk]
        | some body =>
          simp only [hst, if_true]
          cases mkProviderSettings body <;> simp [PyResult.isOk]
      · simp [hst, PyResult.isOk]
  · intro fetch raw h hok
    simp [get_user_provider_settings, h, hok]

/-- C4, witness for `C4_settings_get_absorbs_fetch_failures`. -/
theorem C4_witness :
    (get_user_provider_settings [] "u" (.fetchExn "down")).result =
      .ok default_provider_settings ∧
    ((get_user_provider_settings [("u", fullRawSettings)] "u"
        (.fetchExn "down")).result).isOk = true :=
  ⟨(C4_settings_get_absorbs_fetch_failures [] "u").1 "down" rfl,
   (C4_settings_get_absorbs_fetch_failures [("u", fullRawSettings)] "u").2.2.2
     (.fetchExn "down") fullRawSettings (by decide) (by decide)⟩

/-- C5, counterexample: the pydantic `ProviderSettings` model declares
only the `openai`, `anthropic` and `google` fields, so the value the
settings cache returns — here the default returned on fetch failure —
has **no** entry for `github` or `ollama` (attribute access for them
fails, cf. line 311). -/
theorem C5_counterexample :
    (get_user_provider_settings [] "u2" (.fetchExn "down")).result =
      .ok default_provider_settings ∧
    default_provider_settings.attr "github" = none ∧
    default_provider_settings.attr "ollama" = none := by
  decide

/-- C5, amended: every `ProviderSettings` value has an entry exactly for
the providers of the fixed enum {openai, anthropic, google}; each entry
of the default settings carries `apiKey = ""` and `enabled = False`. -/
theorem C5_provider_entries (s : ProviderSettings) (p : String) :
    ((s.attr p).isSome = true ↔ p = "openai" ∨ p = "anthropic" ∨ p = "google") ∧
    pyGet defaultProviderDict "apiKey" = some (.vStr "") ∧
    pyGet defaultProviderDict "enabled" = some (.vBool false) := by
  refine ⟨?_, by decide, by decide⟩
  unfold ProviderSettings.attr
  split_ifs with h1 h2 h3 <;> simp_all

/-- C5, witness for `C5_provider_entries`. -/
theorem C5_witness : (default_provider_settings.attr "openai").isSome = true :=
  ((C5_provider_entries default_provider_settings "openai").1).mpr (Or.inl rfl)

/-- C6: when the request omits the provider, `chat_completion` selects
the first usable provider in the fixed priority order openai, anthropic,
google, ollama — the first three qualify iff their settings entry is
enabled, ollama iff the local model listing is non-empty — and when none
qualifies it fails with the no-provider error without invoking any
provider. -/
theorem C6_auto_selection_priority (settings : ProviderSettings)
    (om : List String) (msgs : List ChatMessage) (model : Option String) :
    autoSelectProvider settings om =
      (["openai", "anthropic", "google", "ollama"] : List String).find?
        (specUsableProvider settings om) ∧
    chat_completion settings om ⟨msgs, none, model⟩ =
      (match autoSelectProvider settings om with
       | some p => dispatchProvider settings ⟨msgs, none, model⟩ p
       | none => .failed .noProvider) ∧
    (autoSelectProvider settings om = none →
      chat_completion settings om ⟨msgs, none, model⟩ = .failed .noProvider) := by
  refine ⟨?_, rfl, ?_⟩
  · by_cases ho : pyGetTruthy settings.openai "enabled" <;>
      by_cases ha : pyGetTruthy settings.anthropic "enabled" <;>
      by_cases hg : pyGetTruthy settings.google "enabled" <;>
      cases om <;>
      simp [autoSelectProvider, specUsableProvider, List.find?, ho, ha, hg]
  · intro h
    simp [chat_completion, h]

/-- C6, witness for `C6_auto_selection_priority`. -/
theorem C6_witness :
    chat_completion default_provider_settings [] ⟨[], none, none⟩ =
      .failed .noProvider ∧
    autoSelectProvider default_provider_settings [] =
      (["openai", "anthropic", "google", "ollama"] : List String).find?
        (specUsableProvider default_provider_settings []) :=
  ⟨(C6_auto_selection_priority default_provider_settings [] [] none).2.2 rfl,
   (C6_auto_selection_priority default_provider_settings [] [] none).1⟩

/-- C7: the executor attempts all N operations sequentially in list
order and returns exactly N results in the same order (the k-th result
is the tag of the k-th operation paired with the outcome of its own
call, independent of every other call's outcome); a transport exception
or a non-200 response makes that single operation's result a failure
carrying an error message. -/
theorem C7_executor_attempts_all (ops : List GitOperationRequest)
    (outcomes : Nat → ExecOutcome) :
    (execute_git_operations ops outcomes).length = ops.length ∧
    (∀ (k : Nat) (op : GitOperationRequest), ops[k]? = some op →
      (execute_git_operations ops outcomes)[k]? =
        some (op.operation, execute_git_operation op (outcomes k))) ∧
    (∀ (op : GitOperationRequest) (msg : String),
      (execute_git_operation op (.execExn msg)).isFailure = true) ∧
    (∀ (op : GitOperationRequest) (st : Nat) (b : Option PyDict) (t : String),
      st ≠ 200 → (execute_git_operation op (.execResp st b t)).isFailure = true) := by
  refine ⟨?_, ?_, ?_, ?_⟩
  · simp [execute_git_operations]
  · intro k op hk
    simp [execute_git_operations, List.getElem?_map, List.getElem?_enum, hk]
  · intro op msg
    unfold execute_git_operation
    split <;> simp [OpResult.isFailure]
  · intro op st b t hst
    unfold execute_git_operation
    split
    · simp only [if_neg hst]
      cases b <;> simp [OpResult.isFailure]
    · simp [OpResult.isFailure]

/-- C7, witness for `C7_executor_attempts_all`: two operations, the
first failing with a transport exception, the second still attempted
and succeeding. -/
theorem C7_witness :
    (execute_git_operations
        [{ operation := "checkout", branch := some "dev" }, { operation := "push" }]
        (fun k => if k = 0 then .execExn "boom" else .execResp 200 (some []) "")).length
      = 2 ∧
    (execute_git_operations
        [{ operation := "checkout", branch := some "dev" }, { operation := "push" }]
        (fun k => if k = 0 then .execExn "boom" else .execResp 200 (some []) ""))[1]?
      = some ("push", .ok []) ∧
    (execute_git_operation { operation := "push" } (.execExn "boom")).isFailure = true ∧
    (execute_git_operation { operation := "push" }
        (.execResp 500 none "err")).isFailure = true := by
  have h := C7_executor_attempts_all
    [{ operation := "checkout", branch := some "dev" }, { operation := "push" }]
    (fun k => if k = 0 then .execExn "boom" else .execResp 200 (some []) "")
  exact ⟨h.1, h.2.1 1 { operation := "push" } rfl,
    h.2.2.1 { operation := "push" } "boom",
    h.2.2.2 { operation := "push" } 500 none "err" (by decide)⟩

/-- C8, counterexample: a ChatRequest whose explicit provider string is
`""` — a string that is not one of the supported providers — does *not*
fail: `if not provider` (line 150) treats the empty string as an absent
provider, auto-selection picks the enabled OpenAI entry, and a provider
network call is attempted. -/
theorem C8_counterexample :
    (["openai", "anthropic", "google", "ollama", "github"] : List String).contains ""
      = false ∧
    chat_completion openaiEnabledSettings [] ⟨[⟨"user", "hi"⟩], some "", none⟩ =
      .invoked ⟨"openai", "gpt-3.5-turbo", .chat [.roleContent "user" "hi"]⟩ := by
  decide

/-- C8, amended: for every ChatRequest whose explicit provider string is
non-empty and not one of openai, anthropic, google, ollama, dispatch
fails with the well-defined unsupported-provider service error and never
reaches a provider call (the empty string is instead treated as an
absent provider and goes through auto-selection). -/
theorem C8_unsupported_provider_error (settings : ProviderSettings)
    (om : List String) (msgs : List ChatMessage) (model : Option String)
    (p : String) (hne : p ≠ "") (h1 : p ≠ "openai") (h2 : p ≠ "anthropic")
    (h3 : p ≠ "google") (h4 : p ≠ "ollama") :
    chat_completion settings om ⟨msgs, some p, model⟩ =
      .failed (.serviceError ("Unsupported provider: " ++ p)) ∧
    chat_completion settings om ⟨msgs, some "", model⟩ =
      chat_completion settings om ⟨msgs, none, model⟩ := by
  refine ⟨?_, rfl⟩
  by_cases h5 : p = "github"
  · subst h5
    simp [chat_completion, dispatchProvider, get_provider_client, formatMessages]
  · simp [chat_completion, dispatchProvider, get_provider_client, hne, h1, h2, h3,
      h4, h5]

/-- C8, witness for `C8_unsupported_provider_error`. -/
theorem C8_witness :
    chat_completion default_provider_settings [] ⟨[⟨"user", "hi"⟩], some "foobar", none⟩ =
      .failed (.serviceError ("Unsupported provider: " ++ "foobar")) :=
  (C8_unsupported_provider_error default_provider_settings [] [⟨"user", "hi"⟩] none
    "foobar" (by decide) (by decide) (by decide) (by decide) (by decide)).1

/-- C9: intent extraction is a pure function of the lower-cased input:
`extract(m) = extract(lowercase(m))` for every message, and
`extract("clone https://x/y.git")` yields exactly one clone operation
with `repoUrl = "https://x/y.git"` and `branch = "main"` — also when the
original message uses capital letters, in which case the captured field
is the lower-cased text. -/
theorem C9_extraction_lowercase_pure :
    (∀ m : String, detect_git_operations m = detect_git_operations (pyLower m)) ∧
    detect_git_operations "clone https://x/y.git" =
      [{ operation := "clone", repoUrl := some "https://x/y.git",
         branch := some "main" }] ∧
    detect_git_operations "Clone HTTPS://X/y.git" =
      [{ operation := "clone", repoUrl := some "https://x/y.git",
         branch := some "main" }] := by
  refine ⟨fun m => (detect_lower_invariant m).symm, by decide, by decide⟩

/-- C10: only a 200 fetch populates the cache: the body is stored under
the user key, a later get for that user does not contact the remote
service again and returns the validation of the stored body (the stored
settings themselves whenever they validate), and the cache is unchanged;
failed fetches (exception, non-200, undecodable 200 body) store nothing,
so a later get for that user performs the remote fetch again. -/
theorem C10_cache_population (cache : SettingsCache) (uid : String)
    (body : RawSettings) (f2 : FetchOutcome)
    (h : List.lookup uid cache = none) :
    (get_user_provider_settings cache uid (.fetchResp 200 (some body))).cache =
        (uid, body) :: cache ∧
    (get_user_provider_settings ((uid, body) :: cache) uid f2).fetched = false ∧
    (get_user_provider_settings ((uid, body) :: cache) uid f2).cache =
        (uid, body) :: cache ∧
    (get_user_provider_settings ((uid, body) :: cache) uid f2).result =
        mkProviderSettings body ∧
    (∀ s, mkProviderSettings body = .ok s →
      (get_user_provider_settings ((uid, body) :: cache) uid f2).result = .ok s) ∧
    (∀ st b, st ≠ 200 →
      (get_user_provider_settings cache uid (.fetchResp st b)).cache = cache) ∧
    (∀ m, (get_user_provider_settings cache uid (.fetchExn m)).cache = cache) ∧
    (get_user_provider_settings cache uid (.fetchResp 200 none)).cache = cache ∧
    (∀ m f3, (get_user_provider_settings
        (get_user_provider_settings cache uid (.fetchExn m)).cache uid f3).fetched =
          true) := by
  have hl : List.lookup uid ((uid, body) :: cache) = some body := by
    simp [List.lookup]
  refine ⟨?_, ?_, ?_, ?_, ?_, ?_, ?_, ?_, ?_⟩
  · cases hmk : mkProviderSettings body <;>
      simp [get_user_provider_settings, h, hmk]
  · simp [get_user_provider_settings, hl]
  · simp [get_user_provider_settings, hl]
  · simp [get_user_provider_settings, hl]
  · intro s hs
    simp [get_user_provider_settings, hl, hs]
  · intro st b hst
    simp [get_user_provider_settings, h, hst]
  · intro m
    simp [get_user_provider_settings, h]
  · simp [get_user_provider_settings, h]
  · intro m f3
    cases f3 with
    | fetchExn m2 => simp [get_user_provider_settings, h]
    | fetchResp st b? =>
      by_cases hst : st = 200
      · cases b? with
        | none => simp [get_user_provider_settings, h, hst]
        | some bb =>
          cases hmk : mkProviderSettings bb <;>
            simp [get_user_provider_settings, h, hst, hmk]
      · simp [get_user_provider_settings, h, hst]

/-- C10, witness for `C10_cache_population`. -/
theorem C10_witness :
    (get_user_provider_settings [] "u" (.fetchResp 200 (some fullRawSettings))).cache =
      [("u", fullRawSettings)] ∧
    (get_user_provider_settings [("u", fullRawSettings)] "u"
        (.fetchExn "later")).fetched = false :=
  ⟨(C10_cache_population [] "u" fullRawSettings (.fetchExn "later") rfl).1,
   (C10_cache_population [] "u" fullRawSettings (.fetchExn "later") rfl).2.1⟩

end AIService
